import Mathlib

/-!
Shallow embedding of the LADWP Energy Cost integration
(`custom_components/ladwp_energy_cost/const.py` and `sensor.py`).

Python floats are modelled as exact rationals (`ℚ`); the decimal rate
literals of `const.py` are exact decimals, so every table entry is
represented exactly.  Python `datetime` values are modelled by
`PyDateTime` (proleptic Gregorian calendar, local time), with
`weekday` derived from the date exactly as `datetime.weekday()` is
(Monday = 0).  A Python function that can raise (`datetime(y, m, d)`
with an out-of-range day raises `ValueError`) is modelled with
`Option`, `none` standing for the raised exception.
-/

namespace Ladwp

/-- TOU period keys `"high_peak"`, `"low_peak"`, `"base"` of `sensor.py`. -/
inductive Period where
  | highPeak
  | lowPeak
  | base
deriving DecidableEq, Repr

/-- Tier keys `"tier1"`, `"tier2"`, `"tier3"` of `const.py`. -/
inductive Tier where
  | tier1
  | tier2
  | tier3
deriving DecidableEq, Repr

/-- `RATE_PLAN_STANDARD` / `RATE_PLAN_TIME_OF_USE` from `const.py`. -/
inductive RatePlan where
  | standard
  | timeOfUse
deriving DecidableEq, Repr

/-- `ZONE_1` / `ZONE_2` from `const.py`. -/
inductive Zone where
  | zone1
  | zone2
deriving DecidableEq, Repr

/-- `BILLING_MONTHLY` / `BILLING_BIMONTHLY` from `const.py`. -/
inductive BillingPeriod where
  | monthly
  | bimonthly
deriving DecidableEq, Repr

/-- `season` strings `"summer"` / `"winter"` used by the legacy rate tables. -/
inductive Season where
  | summer
  | winter
deriving DecidableEq, Repr

/-- `SUMMER_START_MONTH = 6` (`const.py`). -/
def SUMMER_START_MONTH : ℕ := 6

/-- `SUMMER_END_MONTH = 9` (`const.py`). -/
def SUMMER_END_MONTH : ℕ := 9

/-- Python `time` objects of `const.py`, as minutes since midnight.
`HIGH_PEAK_START = time(13, 0)`. -/
def HIGH_PEAK_START : ℕ := 13 * 60

/-- `HIGH_PEAK_END = time(17, 0)` (`const.py`). -/
def HIGH_PEAK_END : ℕ := 17 * 60

/-- `LOW_PEAK_SUMMER_MORNING_START = time(10, 0)` (`const.py`). -/
def LOW_PEAK_SUMMER_MORNING_START : ℕ := 10 * 60

/-- `LOW_PEAK_SUMMER_MORNING_END = time(13, 0)` (`const.py`). -/
def LOW_PEAK_SUMMER_MORNING_END : ℕ := 13 * 60

/-- `LOW_PEAK_SUMMER_EVENING_START = time(17, 0)` (`const.py`). -/
def LOW_PEAK_SUMMER_EVENING_START : ℕ := 17 * 60

/-- `LOW_PEAK_SUMMER_EVENING_END = time(20, 0)` (`const.py`). -/
def LOW_PEAK_SUMMER_EVENING_END : ℕ := 20 * 60

/-- `LOW_PEAK_WINTER_START = time(10, 0)` (`const.py`). -/
def LOW_PEAK_WINTER_START : ℕ := 10 * 60

/-- `LOW_PEAK_WINTER_END = time(20, 0)` (`const.py`). -/
def LOW_PEAK_WINTER_END : ℕ := 20 * 60

/-- `NET_METERING_CREDIT_RATE = 0.1974` (`const.py`). -/
def NET_METERING_CREDIT_RATE : ℚ := 0.1974

/-- `WATTS_TO_KWH_PER_MINUTE = 1 / 60 / 1000` (`sensor.py`). -/
def WATTS_TO_KWH_PER_MINUTE : ℚ := 1 / 60 / 1000

/-- `TIER_LIMITS[zone][billing_period]["tier1_limit"]` (`const.py`). -/
def tier1_limit : Zone → BillingPeriod → ℚ
  | .zone1, .monthly => 350
  | .zone1, .bimonthly => 700
  | .zone2, .monthly => 500
  | .zone2, .bimonthly => 1000

/-- `TIER_LIMITS[zone][billing_period]["tier2_limit"]` (`const.py`). -/
def tier2_limit : Zone → BillingPeriod → ℚ
  | .zone1, .monthly => 1050
  | .zone1, .bimonthly => 2100
  | .zone2, .monthly => 1500
  | .zone2, .bimonthly => 3000

/-- `STANDARD_RATES_2024[month][tier]` (`const.py`).  A month outside 1..12
raises `KeyError` in Python; theorems about rates therefore carry a
month-validity hypothesis, and the catch-all row here is never relied on. -/
def STANDARD_RATES_2024 (month : ℕ) : Tier → ℚ :=
  fun t =>
    match month, t with
    | 1, .tier1 => 0.20042 | 1, .tier2 => 0.25901 | 1, .tier3 => 0.25901
    | 2, .tier1 => 0.20042 | 2, .tier2 => 0.25901 | 2, .tier3 => 0.25901
    | 3, .tier1 => 0.20042 | 3, .tier2 => 0.25901 | 3, .tier3 => 0.25901
    | 4, .tier1 => 0.19645 | 4, .tier2 => 0.25504 | 4, .tier3 => 0.25504
    | 5, .tier1 => 0.19645 | 5, .tier2 => 0.25504 | 5, .tier3 => 0.25504
    | 6, .tier1 => 0.19645 | 6, .tier2 => 0.25504 | 6, .tier3 => 0.34205
    | 7, .tier1 => 0.21169 | 7, .tier2 => 0.27028 | 7, .tier3 => 0.35729
    | 8, .tier1 => 0.21169 | 8, .tier2 => 0.27028 | 8, .tier3 => 0.35729
    | 9, .tier1 => 0.21169 | 9, .tier2 => 0.27028 | 9, .tier3 => 0.35729
    | 10, .tier1 => 0.21408 | 10, .tier2 => 0.27267 | 10, .tier3 => 0.27267
    | 11, .tier1 => 0.21408 | 11, .tier2 => 0.27267 | 11, .tier3 => 0.27267
    | 12, .tier1 => 0.21408 | 12, .tier2 => 0.27267 | 12, .tier3 => 0.27267
    | _, _ => 0

/-- `STANDARD_RATES_2025[month][tier]` (`const.py`). -/
def STANDARD_RATES_2025 (month : ℕ) : Tier → ℚ :=
  fun t =>
    match month, t with
    | 1, .tier1 => 0.22296 | 1, .tier2 => 0.28155 | 1, .tier3 => 0.28155
    | 2, .tier1 => 0.22296 | 2, .tier2 => 0.28155 | 2, .tier3 => 0.28155
    | 3, .tier1 => 0.22296 | 3, .tier2 => 0.28155 | 3, .tier3 => 0.28155
    | 4, .tier1 => 0.22765 | 4, .tier2 => 0.28624 | 4, .tier3 => 0.28624
    | 5, .tier1 => 0.22765 | 5, .tier2 => 0.28624 | 5, .tier3 => 0.28624
    | 6, .tier1 => 0.22765 | 6, .tier2 => 0.28624 | 6, .tier3 => 0.37325
    | 7, .tier1 => 0.22765 | 7, .tier2 => 0.28624 | 7, .tier3 => 0.37325
    | 8, .tier1 => 0.22765 | 8, .tier2 => 0.28624 | 8, .tier3 => 0.37325
    | 9, .tier1 => 0.22765 | 9, .tier2 => 0.28624 | 9, .tier3 => 0.37325
    | 10, .tier1 => 0.21408 | 10, .tier2 => 0.27267 | 10, .tier3 => 0.27267
    | 11, .tier1 => 0.21408 | 11, .tier2 => 0.27267 | 11, .tier3 => 0.27267
    | 12, .tier1 => 0.21408 | 12, .tier2 => 0.27267 | 12, .tier3 => 0.27267
    | _, _ => 0

/-- Legacy seasonal `STANDARD_RATES[season][tier]` (`const.py`). -/
def STANDARD_RATES (s : Season) : Tier → ℚ :=
  fun t =>
    match s, t with
    | .summer, .tier1 => 0.21169
    | .summer, .tier2 => 0.27028
    | .summer, .tier3 => 0.35729
    | .winter, .tier1 => 0.20042
    | .winter, .tier2 => 0.25901
    | .winter, .tier3 => 0.25901

/-- `TOU_RATES_2024[month][period]` (`const.py`). -/
def TOU_RATES_2024 (month : ℕ) : Period → ℚ :=
  fun p =>
    match month, p with
    | 1, .highPeak => 0.22918 | 1, .lowPeak => 0.22918 | 1, .base => 0.20564
    | 2, .highPeak => 0.22918 | 2, .lowPeak => 0.22918 | 2, .base => 0.20564
    | 3, .highPeak => 0.22918 | 3, .lowPeak => 0.22918 | 3, .base => 0.20564
    | 4, .highPeak => 0.22521 | 4, .lowPeak => 0.22521 | 4, .base => 0.20167
    | 5, .highPeak => 0.22521 | 5, .lowPeak => 0.22521 | 5, .base => 0.20167
    | 6, .highPeak => 0.28361 | 6, .lowPeak => 0.22521 | 6, .base => 0.19777
    | 7, .highPeak => 0.29885 | 7, .lowPeak => 0.24045 | 7, .base => 0.21301
    | 8, .highPeak => 0.29885 | 8, .lowPeak => 0.24045 | 8, .base => 0.21301
    | 9, .highPeak => 0.29885 | 9, .lowPeak => 0.24045 | 9, .base => 0.21301
    | 10, .highPeak => 0.24284 | 10, .lowPeak => 0.24284 | 10, .base => 0.21930
    | 11, .highPeak => 0.24284 | 11, .lowPeak => 0.24284 | 11, .base => 0.21930
    | 12, .highPeak => 0.24284 | 12, .lowPeak => 0.24284 | 12, .base => 0.21930
    | _, _ => 0

/-- `TOU_RATES_2025[month][period]` (`const.py`). -/
def TOU_RATES_2025 (month : ℕ) : Period → ℚ :=
  fun p =>
    match month, p with
    | 1, .highPeak => 0.25172 | 1, .lowPeak => 0.25172 | 1, .base => 0.22818
    | 2, .highPeak => 0.25172 | 2, .lowPeak => 0.25172 | 2, .base => 0.22818
    | 3, .highPeak => 0.25172 | 3, .lowPeak => 0.25172 | 3, .base => 0.22818
    | 4, .highPeak => 0.25641 | 4, .lowPeak => 0.25641 | 4, .base => 0.23287
    | 5, .highPeak => 0.25641 | 5, .lowPeak => 0.25641 | 5, .base => 0.23287
    | 6, .highPeak => 0.31481 | 6, .lowPeak => 0.25641 | 6, .base => 0.22897
    | 7, .highPeak => 0.31481 | 7, .lowPeak => 0.25641 | 7, .base => 0.22897
    | 8, .highPeak => 0.31481 | 8, .lowPeak => 0.25641 | 8, .base => 0.22897
    | 9, .highPeak => 0.31481 | 9, .lowPeak => 0.25641 | 9, .base => 0.22897
    | 10, .highPeak => 0.24284 | 10, .lowPeak => 0.24284 | 10, .base => 0.21930
    | 11, .highPeak => 0.24284 | 11, .lowPeak => 0.24284 | 11, .base => 0.21930
    | 12, .highPeak => 0.24284 | 12, .lowPeak => 0.24284 | 12, .base => 0.21930
    | _, _ => 0

/-- Legacy seasonal `TOU_RATES[season][period]` (`const.py`). -/
def TOU_RATES (s : Season) : Period → ℚ :=
  fun p =>
    match s, p with
    | .winter, .highPeak => 0.22918
    | .winter, .lowPeak => 0.22918
    | .winter, .base => 0.20564
    | .summer, .highPeak => 0.29885
    | .summer, .lowPeak => 0.24045
    | .summer, .base => 0.21301

/-! ## Python `datetime` model -/

/-- A Python `datetime` in local time: proleptic Gregorian date plus
time of day in minutes since midnight (the thresholds the program
compares against are all whole hours, so minute granularity is exact). -/
structure PyDateTime where
  year : ℕ
  month : ℕ
  day : ℕ
  todMin : ℕ
deriving DecidableEq, Repr

/-- Gregorian leap-year rule, as used by Python's `datetime`. -/
def isLeapYear (y : ℕ) : Bool :=
  (y % 4 == 0 && y % 100 != 0) || y % 400 == 0

/-- Number of days in a month of a given year (Python `calendar`/`datetime`). -/
def daysInMonth (y m : ℕ) : ℕ :=
  match m with
  | 1 => 31 | 2 => if isLeapYear y then 29 else 28 | 3 => 31
  | 4 => 30 | 5 => 31 | 6 => 30
  | 7 => 31 | 8 => 31 | 9 => 30
  | 10 => 31 | 11 => 30 | 12 => 31
  | _ => 0

/-- Days in the months strictly before month `m` of year `y`. -/
def daysBeforeMonth (y m : ℕ) : ℕ :=
  (List.range m).foldl (fun acc k => acc + daysInMonth y k) 0

/-- Python `date.toordinal()`: day number with `0001-01-01` as day 1. -/
def PyDateTime.toordinal (t : PyDateTime) : ℕ :=
  365 * (t.year - 1) + (t.year - 1) / 4 - (t.year - 1) / 100 + (t.year - 1) / 400
    + daysBeforeMonth t.year t.month + t.day

/-- Python `datetime.weekday()`: Monday = 0 … Sunday = 6
(`0001-01-01` was a Monday). -/
def PyDateTime.weekday (t : PyDateTime) : ℕ :=
  (t.toordinal - 1) % 7

/-- Validity of a `PyDateTime` as a constructible Python `datetime`
value of year ≥ 1 with an in-range time of day. -/
def PyDateTime.valid (t : PyDateTime) : Prop :=
  1 ≤ t.year ∧ 1 ≤ t.month ∧ t.month ≤ 12 ∧
    1 ≤ t.day ∧ t.day ≤ daysInMonth t.year t.month ∧ t.todMin < 1440

instance (t : PyDateTime) : Decidable t.valid := by
  unfold PyDateTime.valid; infer_instance

/-- Python `datetime` comparison `<` (lexicographic on date then time). -/
def PyDateTime.lt (a b : PyDateTime) : Prop :=
  a.year < b.year ∨ (a.year = b.year ∧ (a.month < b.month ∨
    (a.month = b.month ∧ (a.day < b.day ∨ (a.day = b.day ∧ a.todMin < b.todMin)))))

instance (a b : PyDateTime) : Decidable (a.lt b) := by
  unfold PyDateTime.lt; infer_instance

/-- Python `datetime` comparison `<=`. -/
def PyDateTime.le (a b : PyDateTime) : Prop :=
  a.lt b ∨ a = b

instance (a b : PyDateTime) : Decidable (a.le b) := by
  unfold PyDateTime.le; infer_instance

/-- `datetime(year, month, day)` at midnight, composed with
`dt_util.start_of_local_day`: `none` models the `ValueError` Python
raises when the day is out of range for the month. -/
def mkLocalMidnight (year month day : ℕ) : Option PyDateTime :=
  if 1 ≤ year ∧ 1 ≤ month ∧ month ≤ 12 ∧ 1 ≤ day ∧ day ≤ daysInMonth year month then
    some ⟨year, month, day, 0⟩
  else
    none

/-! ## Period classifier (`_is_summer_season`, `_get_time_period`) -/

/-- `_is_summer_season` (`sensor.py`): `SUMMER_START_MONTH <= date.month <= SUMMER_END_MONTH`. -/
def isSummerSeason (t : PyDateTime) : Bool :=
  SUMMER_START_MONTH ≤ t.month && t.month ≤ SUMMER_END_MONTH

/-- `_get_time_period` (`sensor.py`), translated clause by clause. -/
def getTimePeriod (t : PyDateTime) : Period :=
  if 5 ≤ t.weekday then
    .base
  else
    let currentTime := t.todMin
    if isSummerSeason t then
      if HIGH_PEAK_START ≤ currentTime ∧ currentTime < HIGH_PEAK_END then
        .highPeak
      else if (LOW_PEAK_SUMMER_MORNING_START ≤ currentTime ∧
               currentTime < LOW_PEAK_SUMMER_MORNING_END) ∨
              (LOW_PEAK_SUMMER_EVENING_START ≤ currentTime ∧
               currentTime < LOW_PEAK_SUMMER_EVENING_END) then
        .lowPeak
      else
        .base
    else
      if LOW_PEAK_WINTER_START ≤ currentTime ∧ currentTime < LOW_PEAK_WINTER_END then
        .lowPeak
      else
        .base

/-! ## Energy ledger (`_init_energy_data` and the `self.data` dict) -/

/-- The `self.data` dictionary of the coordinator, with the per-period
string-built keys (`f"{period}_kwh_delivered"` …) modelled as
`Period`-indexed functions.  When no solar (resp. load) entity is
configured the Python dict simply lacks the generated (consumed) keys
and they are never read or written; here they are present and stay at
their initial `0`, which is observationally equivalent. -/
structure EnergyData where
  kwhDelivered : Period → ℚ
  kwhReceived : Period → ℚ
  netKwh : Period → ℚ
  cost : Period → ℚ
  kwhGenerated : Period → ℚ
  kwhConsumed : Period → ℚ
  totalKwhDelivered : ℚ
  totalKwhReceived : ℚ
  totalKwhNet : ℚ
  totalKwhGenerated : ℚ
  totalKwhConsumed : ℚ
  solarCostSavings : ℚ
  loadCost : ℚ

/-- `_init_energy_data` (`sensor.py`): every field starts at `0`. -/
def initEnergyData : EnergyData where
  kwhDelivered := fun _ => 0
  kwhReceived := fun _ => 0
  netKwh := fun _ => 0
  cost := fun _ => 0
  kwhGenerated := fun _ => 0
  kwhConsumed := fun _ => 0
  totalKwhDelivered := 0
  totalKwhReceived := 0
  totalKwhNet := 0
  totalKwhGenerated := 0
  totalKwhConsumed := 0
  solarCostSavings := 0
  loadCost := 0

/-- Immutable coordinator configuration (constructor arguments of
`LADWPEnergyDataCoordinator`). -/
structure Config where
  ratePlan : RatePlan
  billingDay : ℕ
  zone : Zone
  billingPeriod : BillingPeriod

/-! ## Rate resolver (`_get_rate`) -/

/-- The season string computed at the top of `_get_rate`. -/
def seasonOf (t : PyDateTime) : Season :=
  if isSummerSeason t then .summer else .winter

/-- The tier selection inside the standard branch of `_get_rate`
(`sensor.py` lines 804‑818): `total_consumption` is read from the
*current* ledger totals at call time. -/
def standardTier (cfg : Config) (data : EnergyData) : Tier :=
  let totalConsumption := data.totalKwhDelivered - data.totalKwhReceived
  if totalConsumption ≤ tier1_limit cfg.zone cfg.billingPeriod then .tier1
  else if totalConsumption ≤ tier2_limit cfg.zone cfg.billingPeriod then .tier2
  else .tier3

/-- `_get_rate` (`sensor.py`), translated branch by branch. -/
def getRate (cfg : Config) (data : EnergyData) (date : PyDateTime) (period : Period) : ℚ :=
  let year := date.year
  let month := date.month
  let season := seasonOf date
  match cfg.ratePlan with
  | .timeOfUse =>
    if year = 2024 then TOU_RATES_2024 month period
    else if year = 2025 then TOU_RATES_2025 month period
    else if year > 2025 then TOU_RATES_2025 month period
    else TOU_RATES season period
  | .standard =>
    let tier := standardTier cfg data
    if year = 2024 then STANDARD_RATES_2024 month tier
    else if year = 2025 then STANDARD_RATES_2025 month tier
    else if year > 2025 then STANDARD_RATES_2025 month tier
    else STANDARD_RATES season tier

/-! ## Net values and costs (`_update_net_values_and_costs`) -/

/-- `_update_net_values_and_costs` (`sensor.py`): for every period,
`net = delivered - received`; `cost = net * rate` when `net > 0`, else
`net * NET_METERING_CREDIT_RATE`; finally
`total_kwh_net = total_kwh_delivered - total_kwh_received`.  The rate
lookup reads the ledger totals as they are when the method runs (the
loop only writes `net_*` and `*_cost` keys, which `_get_rate` never
reads). -/
def updateNetValuesAndCosts (cfg : Config) (now : PyDateTime) (d : EnergyData) : EnergyData :=
  let netF : Period → ℚ := fun p => d.kwhDelivered p - d.kwhReceived p
  let costF : Period → ℚ := fun p =>
    if netF p > 0 then netF p * getRate cfg d now p
    else netF p * NET_METERING_CREDIT_RATE
  { d with
    netKwh := netF
    cost := costF
    totalKwhNet := d.totalKwhDelivered - d.totalKwhReceived }

/-! ## Billing cycle (`_get_billing_cycle_start`, `_get_next_reset_time`) -/

/-- `_get_billing_cycle_start` (`sensor.py`).  `none` models the
`ValueError` raised by `datetime(...)` when `billing_day` exceeds the
length of the chosen month. -/
def getBillingCycleStart (billingDay : ℕ) (now : PyDateTime) : Option PyDateTime :=
  if now.day ≥ billingDay then
    mkLocalMidnight now.year now.month billingDay
  else
    let lastMonth := if now.month > 1 then now.month - 1 else 12
    let lastMonthYear := if now.month > 1 then now.year else now.year - 1
    mkLocalMidnight lastMonthYear lastMonth billingDay

/-- `_get_next_reset_time` (`sensor.py`).  `none` models the
`ValueError` raised by `datetime(...)` when `billing_day` exceeds the
length of the chosen month. -/
def getNextResetTime (billingDay : ℕ) (now : PyDateTime) : Option PyDateTime :=
  if now.day < billingDay then
    mkLocalMidnight now.year now.month billingDay
  else
    let nextMonth := if now.month < 12 then now.month + 1 else 1
    let nextMonthYear := if now.month < 12 then now.year else now.year + 1
    mkLocalMidnight nextMonthYear nextMonth billingDay

/-! ## Ledger update helpers

Each helper mirrors one adjacent pair of `+=` statements in
`sensor.py` (the period-keyed dict entry and its grand total). -/

/-- `self.data[f"{period}_kwh_delivered"] += e; self.data[ATTR_TOTAL_KWH_DELIVERED] += e`. -/
def addDelivered (p : Period) (e : ℚ) (d : EnergyData) : EnergyData :=
  { d with
    kwhDelivered := fun q => if q = p then d.kwhDelivered q + e else d.kwhDelivered q
    totalKwhDelivered := d.totalKwhDelivered + e }

/-- `self.data[f"{period}_kwh_received"] += e; self.data[ATTR_TOTAL_KWH_RECEIVED] += e`. -/
def addReceived (p : Period) (e : ℚ) (d : EnergyData) : EnergyData :=
  { d with
    kwhReceived := fun q => if q = p then d.kwhReceived q + e else d.kwhReceived q
    totalKwhReceived := d.totalKwhReceived + e }

/-- `self.data[f"{period}_kwh_generated"] += e; self.data[ATTR_TOTAL_KWH_GENERATED] += e`. -/
def addGenerated (p : Period) (e : ℚ) (d : EnergyData) : EnergyData :=
  { d with
    kwhGenerated := fun q => if q = p then d.kwhGenerated q + e else d.kwhGenerated q
    totalKwhGenerated := d.totalKwhGenerated + e }

/-- `self.data[f"{period}_kwh_consumed"] += e; self.data[ATTR_TOTAL_KWH_CONSUMED] += e`. -/
def addConsumed (p : Period) (e : ℚ) (d : EnergyData) : EnergyData :=
  { d with
    kwhConsumed := fun q => if q = p then d.kwhConsumed q + e else d.kwhConsumed q
    totalKwhConsumed := d.totalKwhConsumed + e }

/-- The grid branch shared by the live tick and the backfill loop:
`if grid_energy > 0: … delivered … else: … received += abs(grid_energy)`. -/
def applyGridEnergy (p : Period) (gridEnergy : ℚ) (d : EnergyData) : EnergyData :=
  if gridEnergy > 0 then addDelivered p gridEnergy d
  else addReceived p |gridEnergy| d

/-! ## Live tick (`_async_update_data`) -/

/-- Mutable coordinator state: the ledger and `self.last_reset`. -/
structure CoordState where
  data : EnergyData
  lastReset : Option PyDateTime

/-- The body of `_async_update_data` after the reset check
(`sensor.py` lines 844‑901).  Readings are `Option ℚ`:
`none` is `_get_entity_state` returning `None` (entity missing,
`unknown`/`unavailable`, or a state not convertible to `float`).
Note that `_update_net_values_and_costs` is called *inside* the
`if load_power is not None:` block, exactly as in the source. -/
def tickMain (cfg : Config) (st : CoordState) (now : PyDateTime)
    (gridPower solarPower loadPower : Option ℚ) : CoordState :=
  match gridPower with
  | none => st
  | some g =>
    let currentPeriod := getTimePeriod now
    let currentRate := getRate cfg st.data now currentPeriod
    let gridEnergy := g * WATTS_TO_KWH_PER_MINUTE
    let d1 := applyGridEnergy currentPeriod gridEnergy st.data
    let d2 :=
      match solarPower with
      | none => d1
      | some s =>
        let solarEnergy := s * WATTS_TO_KWH_PER_MINUTE
        let d := addGenerated currentPeriod solarEnergy d1
        { d with solarCostSavings := d.solarCostSavings + solarEnergy * currentRate }
    let d3 :=
      match loadPower with
      | none => d2
      | some l =>
        let loadEnergy := l * WATTS_TO_KWH_PER_MINUTE
        let d := addConsumed currentPeriod loadEnergy d2
        let d := { d with loadCost := d.loadCost + loadEnergy * currentRate }
        updateNetValuesAndCosts cfg now d
    { st with data := d3 }

/-- `_async_update_data` (`sensor.py`).  The whole body runs inside a
`try`/`except` that returns `self.data` unchanged on any exception, so:
if `_get_next_reset_time` raises, the state is returned untouched; if
the reset branch is taken and `_get_billing_cycle_start` then raises,
the already-zeroed ledger is kept with the old `last_reset`. -/
def tick (cfg : Config) (st : CoordState) (now : PyDateTime)
    (gridPower solarPower loadPower : Option ℚ) : CoordState :=
  match getNextResetTime cfg.billingDay now with
  | none => st
  | some nextReset =>
    if nextReset.le now then
      match getBillingCycleStart cfg.billingDay now with
      | none => { st with data := initEnergyData }
      | some cycleStart =>
        tickMain cfg { data := initEnergyData, lastReset := some cycleStart }
          now gridPower solarPower loadPower
    else
      tickMain cfg st now gridPower solarPower loadPower

/-! ## Historical backfill step (`_process_historical_data` loop body) -/

/-- One iteration of the `for i, timestamp in enumerate(timestamps)`
loop of `_process_historical_data` (`sensor.py` lines 409‑460), for a
timestamp whose grid value was found.  `energyFactor` is the
`duration_minutes * WATTS_TO_KWH_PER_MINUTE` factor (or the 5-minute
default); timestamps are processed in ascending sorted order, so the
factor is nonnegative.  The rate is resolved from the ledger *before*
this step's energy is added. -/
def processHistoricalStep (cfg : Config) (d : EnergyData) (timestamp : PyDateTime)
    (energyFactor : ℚ) (gridPower : ℚ) (solarPower loadPower : Option ℚ) : EnergyData :=
  let period := getTimePeriod timestamp
  let rate := getRate cfg d timestamp period
  let gridEnergy := gridPower * energyFactor
  let d1 := applyGridEnergy period gridEnergy d
  let d2 :=
    match solarPower with
    | none => d1
    | some s =>
      let solarEnergy := s * energyFactor
      let d' := addGenerated period solarEnergy d1
      { d' with solarCostSavings := d'.solarCostSavings + solarEnergy * rate }
  match loadPower with
  | none => d2
  | some l =>
    let loadEnergy := l * energyFactor
    let d' := addConsumed period loadEnergy d2
    { d' with loadCost := d'.loadCost + loadEnergy * rate }

/-! ## Operation sequences

The coordinator's ledger is mutated only by: the live tick
(`_async_update_data`, which contains the only reset), a backfill loop
iteration, and the single `_update_net_values_and_costs` call at the
end of `_process_historical_data`. -/

/-- One ledger-mutating operation of the coordinator. -/
inductive Op where
  | tickOp (now : PyDateTime) (gridPower solarPower loadPower : Option ℚ)
  | backfillOp (timestamp : PyDateTime) (energyFactor : ℚ)
      (gridPower : ℚ) (solarPower loadPower : Option ℚ)
  | netUpdateOp (now : PyDateTime)

/-- Apply one operation to the coordinator state. -/
def applyOp (cfg : Config) (st : CoordState) : Op → CoordState
  | .tickOp now g s l => tick cfg st now g s l
  | .backfillOp ts f g s l => { st with data := processHistoricalStep cfg st.data ts f g s l }
  | .netUpdateOp now => { st with data := updateNetValuesAndCosts cfg now st.data }

/-- Run a sequence of operations from a state. -/
def runOps (cfg : Config) (st : CoordState) : List Op → CoordState
  | [] => st
  | op :: ops => runOps cfg (applyOp cfg st op) ops

/-- The coordinator's initial state (constructor of
`LADWPEnergyDataCoordinator`): a fresh zero ledger and
`last_reset = _get_billing_cycle_start()`. -/
def initState (cfg : Config) (now : PyDateTime) : CoordState :=
  { data := initEnergyData, lastReset := getBillingCycleStart cfg.billingDay now }

/-! ## Spike filter (`_is_spike`) and `_get_power_at_timestamp` -/

/-- `self._spike_threshold = 5000` (coordinator constructor). -/
def SPIKE_THRESHOLD : ℚ := 5000

/-- `self._max_change_ratio = 5` (coordinator constructor). -/
def MAX_CHANGE_RATIO : ℚ := 5

/-- `self._min_valid_power = 0.1` (coordinator constructor). -/
def MIN_VALID_POWER : ℚ := 0.1

/-- `self._power_history_size = 10` (coordinator constructor). -/
def POWER_HISTORY_SIZE : ℕ := 10

/-- The spike verdict of `_is_spike` (`sensor.py` lines 568‑600) for
one source's history list.  Method 2 computes
`std_dev = variance ** 0.5` and tests `|v - mean| > 3 * std_dev` with
`std_dev > 0`; with both sides nonnegative this is equivalent to the
squared comparison `(v - mean)^2 > 9 * variance` with `variance > 0`,
which is how the square root is expressed over `ℚ`. -/
def isSpikeVerdict (history : List ℚ) (v : ℚ) : Bool :=
  if |v| > SPIKE_THRESHOLD then true
  else if 3 ≤ history.length ∧
      (let mean := history.sum / (history.length : ℚ)
       let variance := (history.map (fun x => (x - mean) ^ 2)).sum / (history.length : ℚ)
       (v - mean) ^ 2 > 9 * variance ∧ variance > 0) then true
  else if history ≠ [] ∧
      (let lastValue := history.getLast!
       |lastValue| > MIN_VALID_POWER ∧ |v| > MIN_VALID_POWER ∧
       (let changeRatio := |v / lastValue|
        changeRatio > MAX_CHANGE_RATIO ∨ changeRatio < 1 / MAX_CHANGE_RATIO)) then true
  else false

/-- `_is_spike` (`sensor.py`): the verdict plus the history mutation.
On a spike the history is returned unmodified; otherwise the value is
appended and the oldest entry evicted when the capacity of
`_power_history_size` is exceeded. -/
def isSpike (history : List ℚ) (v : ℚ) : Bool × List ℚ :=
  if isSpikeVerdict history v then
    (true, history)
  else
    let h := history ++ [v]
    (false, if h.length > POWER_HISTORY_SIZE then h.drop 1 else h)

/-- One statistics entry of the history list passed to
`_get_power_at_timestamp`: the `start` timestamp (abstracted to a
natural-number instant, only compared for equality) and the numeric
value extracted from the `mean`/`sum`/`state` keys (`none` when none
of them parses as a float, in which case the Python loop continues). -/
structure StatEntry where
  start : ℕ
  value : Option ℚ

/-- The scan loop of the statistics branch of `_get_power_at_timestamp`
(`sensor.py` lines 620‑662).  `lastValid` threads the local
`last_valid_power` variable, which starts as `None` and is only ever
assigned in the same iteration that immediately returns, so it is still
`None` whenever the spike branch reads it.  Returns the produced power
value (or `none`) together with the possibly updated filter history. -/
def getPowerScan (filterHist : List ℚ) (timestamp : ℕ) (lastValid : Option ℚ) :
    List StatEntry → Option ℚ × List ℚ
  | [] => (none, filterHist)
  | entry :: rest =>
    if entry.start = timestamp then
      match entry.value with
      | some powerValue =>
        let r := isSpike filterHist powerValue
        if r.1 then
          (some (lastValid.getD 0), r.2)
        else
          (some powerValue, r.2)
      | none => getPowerScan filterHist timestamp lastValid rest
    else getPowerScan filterHist timestamp lastValid rest

/-- `_get_power_at_timestamp` (`sensor.py`, statistics branch): empty
history yields `None`; otherwise the entries are scanned for the
requested timestamp with `last_valid_power` initialized to `None`. -/
def getPowerAtTimestamp (filterHist : List ℚ) (history : List StatEntry)
    (timestamp : ℕ) : Option ℚ × List ℚ :=
  match history with
  | [] => (none, filterHist)
  | _ => getPowerScan filterHist timestamp none history

/-! ## Specification predicates -/

/-- Nonnegativity of the delivered/received ledger fields (per period
and grand totals). -/
def NonnegDR (d : EnergyData) : Prop :=
  (∀ p, 0 ≤ d.kwhDelivered p) ∧ (∀ p, 0 ≤ d.kwhReceived p) ∧
    0 ≤ d.totalKwhDelivered ∧ 0 ≤ d.totalKwhReceived

/-- Nonnegativity of the generated/consumed ledger fields (per period
and grand totals). -/
def NonnegGC (d : EnergyData) : Prop :=
  (∀ p, 0 ≤ d.kwhGenerated p) ∧ (∀ p, 0 ≤ d.kwhConsumed p) ∧
    0 ≤ d.totalKwhGenerated ∧ 0 ≤ d.totalKwhConsumed

/-- Benign inputs for one operation: solar and load readings, when
present, are nonnegative, and a backfill step's energy factor is
nonnegative (timestamps are processed in ascending order, so the
duration-derived factor of the source is nonnegative). -/
def OpOK : Op → Prop
  | .tickOp _ _ s l =>
      (match s with | none => True | some v => 0 ≤ v) ∧
      (match l with | none => True | some v => 0 ≤ v)
  | .backfillOp _ f _ s l =>
      0 ≤ f ∧
      (match s with | none => True | some v => 0 ≤ v) ∧
      (match l with | none => True | some v => 0 ≤ v)
  | .netUpdateOp _ => True

/-- Each grand total equals the sum of its three per-period fields. -/
def TotalsMatch (d : EnergyData) : Prop :=
  d.totalKwhDelivered =
      d.kwhDelivered .highPeak + d.kwhDelivered .lowPeak + d.kwhDelivered .base ∧
  d.totalKwhReceived =
      d.kwhReceived .highPeak + d.kwhReceived .lowPeak + d.kwhReceived .base ∧
  d.totalKwhGenerated =
      d.kwhGenerated .highPeak + d.kwhGenerated .lowPeak + d.kwhGenerated .base ∧
  d.totalKwhConsumed =
      d.kwhConsumed .highPeak + d.kwhConsumed .lowPeak + d.kwhConsumed .base

/-! ## Theorems -/

/-- C5: `_get_time_period` classifies a local timestamp exactly by the
spec rule: weekends are unconditionally `base`; on summer (June–September)
weekdays, `[13:00, 17:00)` is `high_peak`, `[10:00, 13:00) ∪ [17:00, 20:00)`
is `low_peak`, anything else `base`; on winter weekdays `[10:00, 20:00)`
is `low_peak`, else `base` (all intervals half-open).  In particular every
weekday in July is `high_peak` at 14:00, `low_peak` at 11:00 and `base`
at 21:00, and no winter timestamp is `high_peak`. -/
theorem getTimePeriod_spec :
    (∀ t : PyDateTime, 5 ≤ t.weekday → getTimePeriod t = .base) ∧
    (∀ t : PyDateTime, t.weekday < 5 → 6 ≤ t.month → t.month ≤ 9 →
      (13 * 60 ≤ t.todMin → t.todMin < 17 * 60 → getTimePeriod t = .highPeak) ∧
      ((10 * 60 ≤ t.todMin ∧ t.todMin < 13 * 60) ∨
         (17 * 60 ≤ t.todMin ∧ t.todMin < 20 * 60) → getTimePeriod t = .lowPeak) ∧
      (t.todMin < 10 * 60 ∨ 20 * 60 ≤ t.todMin → getTimePeriod t = .base)) ∧
    (∀ t : PyDateTime, t.weekday < 5 → ¬(6 ≤ t.month ∧ t.month ≤ 9) →
      (10 * 60 ≤ t.todMin → t.todMin < 20 * 60 → getTimePeriod t = .lowPeak) ∧
      (t.todMin < 10 * 60 ∨ 20 * 60 ≤ t.todMin → getTimePeriod t = .base)) ∧
    (∀ t : PyDateTime, t.month = 7 → t.weekday < 5 →
      (t.todMin = 14 * 60 → getTimePeriod t = .highPeak) ∧
      (t.todMin = 11 * 60 → getTimePeriod t = .lowPeak) ∧
      (t.todMin = 21 * 60 → getTimePeriod t = .base)) ∧
    (∀ t : PyDateTime, ¬(6 ≤ t.month ∧ t.month ≤ 9) → getTimePeriod t ≠ .highPeak) := by
  have hsummer : ∀ t : PyDateTime, isSummerSeason t = true ↔ (6 ≤ t.month ∧ t.month ≤ 9) := by
    intro t
    simp [isSummerSeason, SUMMER_START_MONTH, SUMMER_END_MONTH]
  refine ⟨?_, ?_, ?_, ?_, ?_⟩
  · intro t hw
    unfold getTimePeriod
    rw [if_pos hw]
  · intro t hw h6 h9
    unfold getTimePeriod
    rw [if_neg (by omega), if_pos ((hsummer t).mpr ⟨h6, h9⟩)]
    unfold HIGH_PEAK_START HIGH_PEAK_END LOW_PEAK_SUMMER_MORNING_START
      LOW_PEAK_SUMMER_MORNING_END LOW_PEAK_SUMMER_EVENING_START LOW_PEAK_SUMMER_EVENING_END
    refine ⟨fun h1 h2 => ?_, fun h => ?_, fun h => ?_⟩
    · rw [if_pos ⟨h1, h2⟩]
    · rw [if_neg (by omega), if_pos (by omega)]
    · rw [if_neg (by omega), if_neg (by omega)]
  · intro t hw hns
    unfold getTimePeriod
    rw [if_neg (by omega),
      if_neg (by rw [Bool.not_eq_true]; rw [← Bool.not_eq_true, hsummer]; exact hns)]
    unfold LOW_PEAK_WINTER_START LOW_PEAK_WINTER_END
    refine ⟨fun h1 h2 => ?_, fun h => ?_⟩
    · rw [if_pos ⟨h1, h2⟩]
    · rw [if_neg (by omega)]
  · intro t hm hw
    unfold getTimePeriod
    rw [if_neg (by omega), if_pos ((hsummer t).mpr (by omega))]
    unfold HIGH_PEAK_START HIGH_PEAK_END LOW_PEAK_SUMMER_MORNING_START
      LOW_PEAK_SUMMER_MORNING_END LOW_PEAK_SUMMER_EVENING_START LOW_PEAK_SUMMER_EVENING_END
    refine ⟨fun h => ?_, fun h => ?_, fun h => ?_⟩
    · rw [if_pos (by omega)]
    · rw [if_neg (by omega), if_pos (by omega)]
    · rw [if_neg (by omega), if_neg (by omega)]
  · intro t hns
    unfold getTimePeriod
    by_cases hw : 5 ≤ t.weekday
    · rw [if_pos hw]; intro h; cases h
    · rw [if_neg hw,
        if_neg (by rw [Bool.not_eq_true]; rw [← Bool.not_eq_true, hsummer]; exact hns)]
      by_cases hl : LOW_PEAK_WINTER_START ≤ t.todMin ∧ t.todMin < LOW_PEAK_WINTER_END
      · rw [if_pos hl]; intro h; cases h
      · rw [if_neg hl]; intro h; cases h

/-- Witness for `getTimePeriod_spec`: concrete instances — Saturday
2024‑07‑06 at 14:00 is `base`; Tuesday 2024‑07‑02 is `high_peak` at
14:00, `low_peak` at 11:00, `base` at 21:00; Wednesday 2024‑01‑10 at
11:00 is `low_peak` and is not `high_peak`. -/
theorem getTimePeriod_spec_witness :
    getTimePeriod ⟨2024, 7, 6, 14 * 60⟩ = .base ∧
    getTimePeriod ⟨2024, 7, 2, 14 * 60⟩ = .highPeak ∧
    getTimePeriod ⟨2024, 7, 2, 11 * 60⟩ = .lowPeak ∧
    getTimePeriod ⟨2024, 7, 2, 21 * 60⟩ = .base ∧
    getTimePeriod ⟨2024, 1, 10, 11 * 60⟩ = .lowPeak ∧
    getTimePeriod ⟨2024, 1, 10, 11 * 60⟩ ≠ .highPeak := by
  refine ⟨getTimePeriod_spec.1 ⟨2024, 7, 6, 14 * 60⟩ (by decide),
    (getTimePeriod_spec.2.2.2.1 ⟨2024, 7, 2, 14 * 60⟩ rfl (by decide)).1 rfl,
    (getTimePeriod_spec.2.2.2.1 ⟨2024, 7, 2, 11 * 60⟩ rfl (by decide)).2.1 rfl,
    (getTimePeriod_spec.2.2.2.1 ⟨2024, 7, 2, 21 * 60⟩ rfl (by decide)).2.2 rfl,
    (getTimePeriod_spec.2.2.1 ⟨2024, 1, 10, 11 * 60⟩ (by decide) (by decide)).1
      (by decide) (by decide),
    getTimePeriod_spec.2.2.2.2 ⟨2024, 1, 10, 11 * 60⟩ (by decide)⟩

/-- In every `TIER_LIMITS` row the tier-1 limit is below the tier-2 limit. -/
theorem tier1_limit_le_tier2_limit (z : Zone) (bp : BillingPeriod) :
    tier1_limit z bp ≤ tier2_limit z bp := by
  cases z <;> cases bp <;> norm_num [tier1_limit, tier2_limit]

/-- C6: for the standard plan, `_get_rate` resolves the tier from the
cumulative net consumption `total_kwh_delivered - total_kwh_received`
of the ledger it is given, with both limit boundaries inclusive to the
lower tier; for zone_1/monthly the limits are 350 and 1050 and
consumptions 349/351/1051 resolve to tier1/tier2/tier3; and the rate a
live tick applies to a sample (here: the load sample) is resolved from
the pre-update ledger, before the tick's energy is added. -/
theorem standardTier_spec :
    (∀ (cfg : Config) (data : EnergyData),
      (data.totalKwhDelivered - data.totalKwhReceived ≤
          tier1_limit cfg.zone cfg.billingPeriod → standardTier cfg data = .tier1) ∧
      (tier1_limit cfg.zone cfg.billingPeriod <
          data.totalKwhDelivered - data.totalKwhReceived →
        data.totalKwhDelivered - data.totalKwhReceived ≤
          tier2_limit cfg.zone cfg.billingPeriod → standardTier cfg data = .tier2) ∧
      (tier2_limit cfg.zone cfg.billingPeriod <
          data.totalKwhDelivered - data.totalKwhReceived →
        standardTier cfg data = .tier3)) ∧
    tier1_limit .zone1 .monthly = 350 ∧
    tier2_limit .zone1 .monthly = 1050 ∧
    standardTier ⟨.standard, 1, .zone1, .monthly⟩
      { initEnergyData with totalKwhDelivered := 349 } = .tier1 ∧
    standardTier ⟨.standard, 1, .zone1, .monthly⟩
      { initEnergyData with totalKwhDelivered := 351 } = .tier2 ∧
    standardTier ⟨.standard, 1, .zone1, .monthly⟩
      { initEnergyData with totalKwhDelivered := 1051 } = .tier3 ∧
    standardTier ⟨.standard, 1, .zone1, .monthly⟩
      { initEnergyData with totalKwhDelivered := 350 } = .tier1 ∧
    standardTier ⟨.standard, 1, .zone1, .monthly⟩
      { initEnergyData with totalKwhDelivered := 1050 } = .tier2 ∧
    (∀ (cfg : Config) (st : CoordState) (now : PyDateTime) (g l : ℚ),
      (tickMain cfg st now (some g) none (some l)).data.loadCost =
        st.data.loadCost +
          l * WATTS_TO_KWH_PER_MINUTE * getRate cfg st.data now (getTimePeriod now)) := by
  have hgen : ∀ (cfg : Config) (data : EnergyData),
      (data.totalKwhDelivered - data.totalKwhReceived ≤
          tier1_limit cfg.zone cfg.billingPeriod → standardTier cfg data = .tier1) ∧
      (tier1_limit cfg.zone cfg.billingPeriod <
          data.totalKwhDelivered - data.totalKwhReceived →
        data.totalKwhDelivered - data.totalKwhReceived ≤
          tier2_limit cfg.zone cfg.billingPeriod → standardTier cfg data = .tier2) ∧
      (tier2_limit cfg.zone cfg.billingPeriod <
          data.totalKwhDelivered - data.totalKwhReceived →
        standardTier cfg data = .tier3) := by
    intro cfg data
    unfold standardTier
    refine ⟨fun h => ?_, fun h1 h2 => ?_, fun h2 => ?_⟩
    · rw [if_pos h]
    · rw [if_neg (not_le.mpr h1), if_pos h2]
    · rw [if_neg (not_le.mpr (lt_of_le_of_lt (tier1_limit_le_tier2_limit _ _) h2)),
        if_neg (not_le.mpr h2)]
  refine ⟨hgen, by norm_num [tier1_limit], by norm_num [tier2_limit],
    (hgen _ _).1 (by norm_num [tier1_limit, initEnergyData]),
    (hgen _ _).2.1 (by norm_num [tier1_limit, initEnergyData])
      (by norm_num [tier2_limit, initEnergyData]),
    (hgen _ _).2.2 (by norm_num [tier2_limit, initEnergyData]),
    (hgen _ _).1 (by norm_num [tier1_limit, initEnergyData]),
    (hgen _ _).2.1 (by norm_num [tier1_limit, initEnergyData])
      (by norm_num [tier2_limit, initEnergyData]), ?_⟩
  intro cfg st now g l
  simp only [tickMain, applyGridEnergy]
  split
  · simp [addDelivered, addConsumed, updateNetValuesAndCosts]
  · simp [addReceived, addConsumed, updateNetValuesAndCosts]

/-- Witness for `standardTier_spec`: the general boundary clauses
applied at concrete ledgers (zone_2/bimonthly, consumptions 900 and
2101), and the pre-update pricing clause applied to a concrete tick. -/
theorem standardTier_spec_witness :
    standardTier ⟨.standard, 1, .zone2, .bimonthly⟩
      { initEnergyData with totalKwhDelivered := 900 } = .tier1 ∧
    standardTier ⟨.standard, 1, .zone2, .bimonthly⟩
      { initEnergyData with totalKwhDelivered := 2101 } = .tier2 ∧
    (tickMain ⟨.standard, 1, .zone1, .monthly⟩ ⟨initEnergyData, none⟩ ⟨2024, 7, 2, 840⟩
        (some 6000) none (some 2000)).data.loadCost =
      initEnergyData.loadCost + 2000 * WATTS_TO_KWH_PER_MINUTE *
        getRate ⟨.standard, 1, .zone1, .monthly⟩ initEnergyData ⟨2024, 7, 2, 840⟩
          (getTimePeriod ⟨2024, 7, 2, 840⟩) :=
  ⟨(standardTier_spec.1 ⟨.standard, 1, .zone2, .bimonthly⟩ _).1
      (by norm_num [tier1_limit, initEnergyData]),
    (standardTier_spec.1 ⟨.standard, 1, .zone2, .bimonthly⟩ _).2.1
      (by norm_num [tier1_limit, initEnergyData])
      (by norm_num [tier2_limit, initEnergyData]),
    standardTier_spec.2.2.2.2.2.2.2.2 ⟨.standard, 1, .zone1, .monthly⟩
      ⟨initEnergyData, none⟩ ⟨2024, 7, 2, 840⟩ 6000 2000⟩

/-- C7: `_get_rate` resolves the unit price by year in this order: an
exact per-month table for 2024 and 2025; for years after 2025 the 2025
table (prices frozen at the latest known schedule, same month); for
years before 2024 the coarse seasonal legacy table, where summer means
month ∈ June..September.  This holds for both plans and every
period/tier key. -/
theorem getRate_year_resolution :
    (∀ (cfg : Config) (data : EnergyData) (t : PyDateTime) (p : Period),
      cfg.ratePlan = .timeOfUse →
        (t.year = 2024 → getRate cfg data t p = TOU_RATES_2024 t.month p) ∧
        (t.year = 2025 → getRate cfg data t p = TOU_RATES_2025 t.month p) ∧
        (t.year < 2024 → getRate cfg data t p = TOU_RATES (seasonOf t) p)) ∧
    (∀ (cfg : Config) (data : EnergyData) (t : PyDateTime) (p : Period),
      cfg.ratePlan = .standard →
        (t.year = 2024 →
          getRate cfg data t p = STANDARD_RATES_2024 t.month (standardTier cfg data)) ∧
        (t.year = 2025 →
          getRate cfg data t p = STANDARD_RATES_2025 t.month (standardTier cfg data)) ∧
        (t.year < 2024 →
          getRate cfg data t p = STANDARD_RATES (seasonOf t) (standardTier cfg data))) ∧
    (∀ (cfg : Config) (data : EnergyData) (t : PyDateTime) (p : Period),
      2025 < t.year →
        getRate cfg data t p = getRate cfg data ⟨2025, t.month, t.day, t.todMin⟩ p) ∧
    (∀ t : PyDateTime,
      seasonOf t = if 6 ≤ t.month ∧ t.month ≤ 9 then .summer else .winter) := by
  have hseason : ∀ t : PyDateTime,
      seasonOf t = if 6 ≤ t.month ∧ t.month ≤ 9 then .summer else .winter := by
    intro t
    unfold seasonOf isSummerSeason SUMMER_START_MONTH SUMMER_END_MONTH
    by_cases h : 6 ≤ t.month ∧ t.month ≤ 9
    · rw [if_pos (by simpa using h), if_pos h]
    · rw [if_neg (by simpa using h), if_neg h]
  refine ⟨?_, ?_, ?_, hseason⟩
  · rintro ⟨plan, bd, z, bp⟩ data t p hp
    cases hp
    simp only [getRate]
    refine ⟨fun h => ?_, fun h => ?_, fun h => ?_⟩
    · rw [if_pos h]
    · rw [if_neg (by omega), if_pos h]
    · rw [if_neg (by omega), if_neg (by omega), if_neg (by omega)]
  · rintro ⟨plan, bd, z, bp⟩ data t p hp
    cases hp
    simp only [getRate]
    refine ⟨fun h => ?_, fun h => ?_, fun h => ?_⟩
    · rw [if_pos h]
    · rw [if_neg (by omega), if_pos h]
    · rw [if_neg (by omega), if_neg (by omega), if_neg (by omega)]
  · rintro ⟨plan, bd, z, bp⟩ data t p hy
    cases plan <;> simp only [getRate] <;>
      rw [if_neg (by omega), if_neg (by omega), if_pos (by omega)] <;> simp

/-- Witness for `getRate_year_resolution`: concrete instances of each
resolution branch. -/
theorem getRate_year_resolution_witness :
    getRate ⟨.timeOfUse, 1, .zone1, .monthly⟩ initEnergyData ⟨2024, 7, 2, 840⟩ .highPeak =
      TOU_RATES_2024 7 .highPeak ∧
    getRate ⟨.standard, 1, .zone1, .monthly⟩ initEnergyData ⟨2025, 3, 2, 840⟩ .base =
      STANDARD_RATES_2025 3 (standardTier ⟨.standard, 1, .zone1, .monthly⟩ initEnergyData) ∧
    getRate ⟨.timeOfUse, 1, .zone1, .monthly⟩ initEnergyData ⟨2030, 3, 2, 840⟩ .base =
      getRate ⟨.timeOfUse, 1, .zone1, .monthly⟩ initEnergyData ⟨2025, 3, 2, 840⟩ .base ∧
    getRate ⟨.timeOfUse, 1, .zone1, .monthly⟩ initEnergyData ⟨2020, 7, 2, 840⟩ .highPeak =
      TOU_RATES (seasonOf ⟨2020, 7, 2, 840⟩) .highPeak :=
  ⟨(getRate_year_resolution.1 ⟨.timeOfUse, 1, .zone1, .monthly⟩ initEnergyData
      ⟨2024, 7, 2, 840⟩ .highPeak rfl).1 rfl,
    (getRate_year_resolution.2.1 ⟨.standard, 1, .zone1, .monthly⟩ initEnergyData
      ⟨2025, 3, 2, 840⟩ .base rfl).2.1 rfl,
    getRate_year_resolution.2.2.1 ⟨.timeOfUse, 1, .zone1, .monthly⟩ initEnergyData
      ⟨2030, 3, 2, 840⟩ .base (by norm_num),
    (getRate_year_resolution.1 ⟨.timeOfUse, 1, .zone1, .monthly⟩ initEnergyData
      ⟨2020, 7, 2, 840⟩ .highPeak rfl).2.2 (by norm_num)⟩

/-- C4 counterexample: `_get_billing_cycle_start` does *not* clip the
billing day to the month length — with `billing_day = 31` and
`now = 2025‑03‑15`, the previous month is February and
`datetime(2025, 2, 31)` raises `ValueError` (modelled as `none`), so no
date — clipped (2025‑02‑28) or otherwise — is returned; symmetrically
`_get_next_reset_time` raises on 2025‑01‑31 with `billing_day = 31`. -/
theorem billing_cycle_no_clipping_counterexample :
    getBillingCycleStart 31 ⟨2025, 3, 15, 600⟩ = none ∧
    getBillingCycleStart 31 ⟨2025, 3, 15, 600⟩ ≠ some ⟨2025, 2, 28, 0⟩ ∧
    getNextResetTime 31 ⟨2025, 1, 31, 600⟩ = none ∧
    getNextResetTime 31 ⟨2025, 1, 31, 600⟩ ≠ some ⟨2025, 2, 28, 0⟩ := by
  refine ⟨?_, ?_, ?_, ?_⟩ <;> decide

/-- C4 amended: for every `billing_day` and `now`, when the calendar
month selected by the rule (this month if `now.day ≥ billing_day`, else
the previous month; for the next reset, this month if
`now.day < billing_day`, else the next month) is long enough to contain
`billing_day`, `_get_billing_cycle_start` (resp. `_get_next_reset_time`)
returns that month's `billing_day` at local midnight; when the selected
month is shorter than `billing_day`, the `datetime` constructor raises
`ValueError` instead — no clipping to the month length is performed. -/
theorem billing_cycle_amended (billingDay : ℕ) (now : PyDateTime)
    (hv : now.valid) (hd : 1 ≤ billingDay) (hy : 2 ≤ now.year) :
    (billingDay ≤ now.day →
      (billingDay ≤ daysInMonth now.year now.month →
        getBillingCycleStart billingDay now = some ⟨now.year, now.month, billingDay, 0⟩) ∧
      (daysInMonth now.year now.month < billingDay →
        getBillingCycleStart billingDay now = none)) ∧
    (now.day < billingDay →
      (billingDay ≤ daysInMonth
          (if now.month > 1 then now.year else now.year - 1)
          (if now.month > 1 then now.month - 1 else 12) →
        getBillingCycleStart billingDay now =
          some ⟨if now.month > 1 then now.year else now.year - 1,
            if now.month > 1 then now.month - 1 else 12, billingDay, 0⟩) ∧
      (daysInMonth (if now.month > 1 then now.year else now.year - 1)
          (if now.month > 1 then now.month - 1 else 12) < billingDay →
        getBillingCycleStart billingDay now = none)) ∧
    (now.day < billingDay →
      (billingDay ≤ daysInMonth now.year now.month →
        getNextResetTime billingDay now = some ⟨now.year, now.month, billingDay, 0⟩) ∧
      (daysInMonth now.year now.month < billingDay →
        getNextResetTime billingDay now = none)) ∧
    (billingDay ≤ now.day →
      (billingDay ≤ daysInMonth
          (if now.month < 12 then now.year else now.year + 1)
          (if now.month < 12 then now.month + 1 else 1) →
        getNextResetTime billingDay now =
          some ⟨if now.month < 12 then now.year else now.year + 1,
            if now.month < 12 then now.month + 1 else 1, billingDay, 0⟩) ∧
      (daysInMonth (if now.month < 12 then now.year else now.year + 1)
          (if now.month < 12 then now.month + 1 else 1) < billingDay →
        getNextResetTime billingDay now = none)) := by
  obtain ⟨h1, hm1, hm2, _, _, _⟩ := hv
  refine ⟨fun hge => ⟨fun hlen => ?_, fun hlen => ?_⟩,
    fun hlt => ⟨fun hlen => ?_, fun hlen => ?_⟩,
    fun hlt => ⟨fun hlen => ?_, fun hlen => ?_⟩,
    fun hge => ⟨fun hlen => ?_, fun hlen => ?_⟩⟩
  · unfold getBillingCycleStart mkLocalMidnight
    rw [if_pos hge, if_pos ⟨by omega, by omega, by omega, by omega, hlen⟩]
  · unfold getBillingCycleStart mkLocalMidnight
    rw [if_pos hge, if_neg (by omega)]
  · unfold getBillingCycleStart mkLocalMidnight
    rw [if_neg (by omega)]
    by_cases hmgt : now.month > 1
    · simp only [if_pos hmgt] at hlen ⊢
      rw [if_pos ⟨by omega, by omega, by omega, by omega, hlen⟩]
    · simp only [if_neg hmgt] at hlen ⊢
      rw [if_pos ⟨by omega, by omega, by omega, by omega, hlen⟩]
  · unfold getBillingCycleStart mkLocalMidnight
    rw [if_neg (by omega)]
    by_cases hmgt : now.month > 1
    · simp only [if_pos hmgt] at hlen ⊢
      rw [if_neg (by omega)]
    · simp only [if_neg hmgt] at hlen ⊢
      rw [if_neg (by omega)]
  · unfold getNextResetTime mkLocalMidnight
    rw [if_pos hlt, if_pos ⟨by omega, by omega, by omega, by omega, hlen⟩]
  · unfold getNextResetTime mkLocalMidnight
    rw [if_pos hlt, if_neg (by omega)]
  · unfold getNextResetTime mkLocalMidnight
    rw [if_neg (by omega)]
    by_cases hmlt : now.month < 12
    · simp only [if_pos hmlt] at hlen ⊢
      rw [if_pos ⟨by omega, by omega, by omega, by omega, hlen⟩]
    · simp only [if_neg hmlt] at hlen ⊢
      rw [if_pos ⟨by omega, by omega, by omega, by omega, hlen⟩]
  · unfold getNextResetTime mkLocalMidnight
    rw [if_neg (by omega)]
    by_cases hmlt : now.month < 12
    · simp only [if_pos hmlt] at hlen ⊢
      rw [if_neg (by omega)]
    · simp only [if_neg hmlt] at hlen ⊢
      rw [if_neg (by omega)]

/-- Witness for `billing_cycle_amended`: with `billing_day = 15` and
`now = 2025‑03‑10 10:00`, the cycle started on 2025‑02‑15 (the previous
month, 28 days ≥ 15) and the next reset is 2025‑03‑15, both at local
midnight; with `billing_day = 31` at the same `now`, the previous month
is too short and the cycle-start computation raises. -/
theorem billing_cycle_amended_witness :
    getBillingCycleStart 15 ⟨2025, 3, 10, 600⟩ = some ⟨2025, 2, 15, 0⟩ ∧
    getNextResetTime 15 ⟨2025, 3, 10, 600⟩ = some ⟨2025, 3, 15, 0⟩ ∧
    getBillingCycleStart 31 ⟨2025, 3, 10, 600⟩ = none :=
  ⟨((billing_cycle_amended 15 ⟨2025, 3, 10, 600⟩ (by decide) (by decide)
        (by decide)).2.1 (by decide)).1 (by decide),
    ((billing_cycle_amended 15 ⟨2025, 3, 10, 600⟩ (by decide) (by decide)
        (by decide)).2.2.1 (by decide)).1 (by decide),
    ((billing_cycle_amended 31 ⟨2025, 3, 10, 600⟩ (by decide) (by decide)
        (by decide)).2.1 (by decide)).2 (by decide)⟩

/-- `_get_next_reset_time` always returns a time strictly after `now`
(when it returns at all): in the `now.day < billing_day` branch the
returned midnight lies later in the same month, and otherwise it lies
in the following month.  Consequently the reset condition
`now >= self._get_next_reset_time()` of `_async_update_data` can never
hold. -/
theorem now_lt_getNextResetTime {billingDay : ℕ} {now r : PyDateTime}
    (h : getNextResetTime billingDay now = some r) : now.lt r := by
  unfold getNextResetTime mkLocalMidnight at h
  by_cases hc : now.day < billingDay
  · rw [if_pos hc] at h
    split at h
    · rw [Option.some.injEq] at h
      subst h
      exact Or.inr ⟨rfl, Or.inr ⟨rfl, Or.inl hc⟩⟩
    · exact absurd h (by simp)
  · rw [if_neg hc] at h
    by_cases hm : now.month < 12
    · simp only [if_pos hm] at h
      split at h
      · rw [Option.some.injEq] at h
        subst h
        exact Or.inr ⟨rfl, Or.inl (Nat.lt_succ_self _)⟩
      · exact absurd h (by simp)
    · simp only [if_neg hm] at h
      split at h
      · rw [Option.some.injEq] at h
        subst h
        exact Or.inl (Nat.lt_succ_self _)
      · exact absurd h (by simp)

/-- Strict datetime order is asymmetric, so `a < b` rules out `b ≤ a`. -/
theorem PyDateTime.not_le_of_lt {a b : PyDateTime} (h : a.lt b) : ¬ b.le a := by
  unfold PyDateTime.lt at h
  rintro (hlt | rfl)
  · unfold PyDateTime.lt at hlt
    omega
  · omega

/-- C9: a live tick whose grid reading is missing or not convertible to
a number (`_get_entity_state` returns `None`) is skipped atomically: the
coordinator state — ledger and `last_reset` — is returned entirely
unchanged, even when solar or load readings are available.  (The reset
check precedes the grid check in `_async_update_data`, but the reset
branch can never fire because the freshly recomputed next-reset time is
always in the future.) -/
theorem missing_grid_tick_skipped (cfg : Config) (st : CoordState) (now : PyDateTime)
    (solarPower loadPower : Option ℚ) :
    tick cfg st now none solarPower loadPower = st := by
  cases h : getNextResetTime cfg.billingDay now with
  | none => simp only [tick, h]
  | some r =>
    simp only [tick, h]
    rw [if_neg (PyDateTime.not_le_of_lt (now_lt_getNextResetTime h))]
    rfl

/-- C8 failing input: the reset branch of `_async_update_data` is
unreachable, so the ledger is never reset.  With `billing_day = 1` the
billing cycle that began 2025‑01‑01 ends at the 2025‑02‑01 00:00
boundary, yet on a tick at 2025‑02‑01 00:30 the freshly recomputed
next-reset time is already 2025‑03‑01, `now >= next_reset` is false, and
the accumulated ledger (here `total_kwh_delivered = 5`) and the stale
`last_reset` survive past the boundary. -/
theorem reset_branch_unreachable_demo :
    getNextResetTime 1 ⟨2025, 2, 1, 30⟩ = some ⟨2025, 3, 1, 0⟩ ∧
    (tick ⟨.timeOfUse, 1, .zone1, .monthly⟩
        ⟨{ initEnergyData with totalKwhDelivered := 5 }, some ⟨2025, 1, 1, 0⟩⟩
        ⟨2025, 2, 1, 30⟩ (some 0) none none).data.totalKwhDelivered = 5 ∧
    (tick ⟨.timeOfUse, 1, .zone1, .monthly⟩
        ⟨{ initEnergyData with totalKwhDelivered := 5 }, some ⟨2025, 1, 1, 0⟩⟩
        ⟨2025, 2, 1, 30⟩ (some 0) none none).lastReset = some ⟨2025, 1, 1, 0⟩ := by
  have h : getNextResetTime 1 ⟨2025, 2, 1, 30⟩ = some ⟨2025, 3, 1, 0⟩ := by decide
  have hle : ¬ PyDateTime.le ⟨2025, 3, 1, 0⟩ ⟨2025, 2, 1, 30⟩ := by decide
  refine ⟨h, ?_, ?_⟩ <;>
    simp [tick, h, hle, tickMain, applyGridEnergy, addReceived, addDelivered,
      WATTS_TO_KWH_PER_MINUTE]

/-- C1 failing input: in `_async_update_data` the call to
`_update_net_values_and_costs` sits inside the
`if load_power is not None:` block, so on a tick with a valid grid
reading (6000 W, Tuesday 2024‑07‑02 14:00, high peak) but no load
reading, `high_peak_kwh_delivered` advances to 0.1 kWh while
`net_high_peak_kwh`, `high_peak_cost` and `total_kwh_net` are left
stale at their previous values (here 0), violating
`net = delivered − received` and `total_net = total_delivered −
total_received` after the tick. -/
theorem net_values_stale_without_load :
    (tick ⟨.timeOfUse, 1, .zone1, .monthly⟩ ⟨initEnergyData, none⟩ ⟨2024, 7, 2, 840⟩
        (some 6000) none none).data.kwhDelivered .highPeak = 1/10 ∧
    (tick ⟨.timeOfUse, 1, .zone1, .monthly⟩ ⟨initEnergyData, none⟩ ⟨2024, 7, 2, 840⟩
        (some 6000) none none).data.kwhReceived .highPeak = 0 ∧
    (tick ⟨.timeOfUse, 1, .zone1, .monthly⟩ ⟨initEnergyData, none⟩ ⟨2024, 7, 2, 840⟩
        (some 6000) none none).data.netKwh .highPeak = 0 ∧
    (tick ⟨.timeOfUse, 1, .zone1, .monthly⟩ ⟨initEnergyData, none⟩ ⟨2024, 7, 2, 840⟩
        (some 6000) none none).data.netKwh .highPeak ≠
      (tick ⟨.timeOfUse, 1, .zone1, .monthly⟩ ⟨initEnergyData, none⟩ ⟨2024, 7, 2, 840⟩
        (some 6000) none none).data.kwhDelivered .highPeak -
      (tick ⟨.timeOfUse, 1, .zone1, .monthly⟩ ⟨initEnergyData, none⟩ ⟨2024, 7, 2, 840⟩
        (some 6000) none none).data.kwhReceived .highPeak ∧
    (tick ⟨.timeOfUse, 1, .zone1, .monthly⟩ ⟨initEnergyData, none⟩ ⟨2024, 7, 2, 840⟩
        (some 6000) none none).data.totalKwhNet ≠
      (tick ⟨.timeOfUse, 1, .zone1, .monthly⟩ ⟨initEnergyData, none⟩ ⟨2024, 7, 2, 840⟩
        (some 6000) none none).data.totalKwhDelivered -
      (tick ⟨.timeOfUse, 1, .zone1, .monthly⟩ ⟨initEnergyData, none⟩ ⟨2024, 7, 2, 840⟩
        (some 6000) none none).data.totalKwhReceived := by
  have h : getNextResetTime 1 ⟨2024, 7, 2, 840⟩ = some ⟨2024, 8, 1, 0⟩ := by decide
  have hle : ¬ PyDateTime.le ⟨2024, 8, 1, 0⟩ ⟨2024, 7, 2, 840⟩ := by decide
  have hp : getTimePeriod ⟨2024, 7, 2, 840⟩ = Period.highPeak := by decide
  have hpos : (0 : ℚ) < 6000 * WATTS_TO_KWH_PER_MINUTE := by
    norm_num [WATTS_TO_KWH_PER_MINUTE]
  refine ⟨?_, ?_, ?_, ?_, ?_⟩ <;>
    norm_num [tick, h, hle, tickMain, applyGridEnergy, hpos, hp, addDelivered,
      initEnergyData, WATTS_TO_KWH_PER_MINUTE]

/-- C2 counterexample: a live tick with a valid grid reading of 0 W and
a *negative* solar reading of −1000 W (Tuesday 2024‑07‑02 14:00) drives
`high_peak_kwh_generated` and `total_kwh_generated` below zero — the
tick adds `solar_power * WATTS_TO_KWH_PER_MINUTE` to the generated
fields without any sign check. -/
theorem negative_solar_breaks_nonneg :
    (tick ⟨.timeOfUse, 1, .zone1, .monthly⟩ ⟨initEnergyData, none⟩ ⟨2024, 7, 2, 840⟩
        (some 0) (some (-1000)) none).data.kwhGenerated .highPeak < 0 ∧
    (tick ⟨.timeOfUse, 1, .zone1, .monthly⟩ ⟨initEnergyData, none⟩ ⟨2024, 7, 2, 840⟩
        (some 0) (some (-1000)) none).data.totalKwhGenerated < 0 := by
  have h : getNextResetTime 1 ⟨2024, 7, 2, 840⟩ = some ⟨2024, 8, 1, 0⟩ := by decide
  have hle : ¬ PyDateTime.le ⟨2024, 8, 1, 0⟩ ⟨2024, 7, 2, 840⟩ := by decide
  have hp : getTimePeriod ⟨2024, 7, 2, 840⟩ = Period.highPeak := by decide
  constructor <;>
    norm_num [tick, h, hle, tickMain, applyGridEnergy, hp, addGenerated, addReceived,
      initEnergyData, WATTS_TO_KWH_PER_MINUTE]

/-- C3 failing input: the local `last_valid_power` of
`_get_power_at_timestamp` is reinitialized to `None` on every call and
is only assigned in the branch that immediately returns a non-spike
value, so when the value found at the requested timestamp is a spike it
is *always* `None` and the function substitutes `0` — not the most
recent previously accepted value.  Here the filter history holds a
previously accepted 1000 W for the source; the entry at the requested
timestamp is 10000 W (above the 5000 W threshold, a spike), yet the
function returns `0` instead of `1000`.  The filter's history is left
unmodified, as the claim states. -/
theorem spike_substitution_returns_zero :
    isSpikeVerdict [1000] 10000 = true ∧
    getPowerAtTimestamp [1000] [⟨5, some 10000⟩] 5 = (some 0, [1000]) ∧
    (getPowerAtTimestamp [1000] [⟨5, some 10000⟩] 5).1 ≠ some 1000 := by
  have hv : isSpikeVerdict [1000] 10000 = true := by
    unfold isSpikeVerdict SPIKE_THRESHOLD
    rw [if_pos (by norm_num)]
  refine ⟨hv, ?_, ?_⟩ <;>
    simp [getPowerAtTimestamp, getPowerScan, isSpike, hv]

/-! ### Preservation lemmas for the ledger invariants -/

/-- `initEnergyData` has nonnegative delivered/received fields. -/
theorem NonnegDR_init : NonnegDR initEnergyData :=
  ⟨fun _ => le_rfl, fun _ => le_rfl, le_rfl, le_rfl⟩

/-- `initEnergyData` has nonnegative generated/consumed fields. -/
theorem NonnegGC_init : NonnegGC initEnergyData :=
  ⟨fun _ => le_rfl, fun _ => le_rfl, le_rfl, le_rfl⟩

/-- `initEnergyData` has totals matching its (zero) period sums. -/
theorem TotalsMatch_init : TotalsMatch initEnergyData :=
  ⟨by norm_num [initEnergyData], by norm_num [initEnergyData],
    by norm_num [initEnergyData], by norm_num [initEnergyData]⟩

/-- The grid branch preserves delivered/received nonnegativity: it adds
a positive quantity to delivered, or an absolute value to received. -/
theorem NonnegDR_applyGridEnergy {p : Period} {e : ℚ} {d : EnergyData} (h : NonnegDR d) :
    NonnegDR (applyGridEnergy p e d) := by
  obtain ⟨h1, h2, h3, h4⟩ := h
  unfold applyGridEnergy
  split
  · refine ⟨fun q => ?_, h2, add_nonneg h3 (by linarith), h4⟩
    simp only [addDelivered]
    split
    · exact add_nonneg (h1 q) (by linarith)
    · exact h1 q
  · refine ⟨h1, fun q => ?_, h3, add_nonneg h4 (abs_nonneg _)⟩
    simp only [addReceived]
    split
    · exact add_nonneg (h2 q) (abs_nonneg _)
    · exact h2 q

/-- The grid branch never touches the generated/consumed fields. -/
theorem NonnegGC_applyGridEnergy {p : Period} {e : ℚ} {d : EnergyData} (h : NonnegGC d) :
    NonnegGC (applyGridEnergy p e d) := by
  unfold applyGridEnergy
  split
  · exact h
  · exact h

/-- Adding a nonnegative generated quantity preserves generated/consumed
nonnegativity. -/
theorem NonnegGC_addGenerated {p : Period} {e : ℚ} {d : EnergyData}
    (h : NonnegGC d) (he : 0 ≤ e) : NonnegGC (addGenerated p e d) := by
  obtain ⟨h1, h2, h3, h4⟩ := h
  refine ⟨fun q => ?_, h2, add_nonneg h3 he, h4⟩
  simp only [addGenerated]
  split
  · exact add_nonneg (h1 q) he
  · exact h1 q

/-- Adding a nonnegative consumed quantity preserves generated/consumed
nonnegativity. -/
theorem NonnegGC_addConsumed {p : Period} {e : ℚ} {d : EnergyData}
    (h : NonnegGC d) (he : 0 ≤ e) : NonnegGC (addConsumed p e d) := by
  obtain ⟨h1, h2, h3, h4⟩ := h
  refine ⟨h1, fun q => ?_, h3, add_nonneg h4 he⟩
  simp only [addConsumed]
  split
  · exact add_nonneg (h2 q) he
  · exact h2 q

/-- The solar/generated update does not touch delivered/received. -/
theorem NonnegDR_addGenerated {p : Period} {e : ℚ} {d : EnergyData} (h : NonnegDR d) :
    NonnegDR (addGenerated p e d) := h

/-- The load/consumed update does not touch delivered/received. -/
theorem NonnegDR_addConsumed {p : Period} {e : ℚ} {d : EnergyData} (h : NonnegDR d) :
    NonnegDR (addConsumed p e d) := h

/-- Overwriting `solar_cost_savings` touches neither invariant family. -/
theorem NonnegDR_setSolarSavings {e : ℚ} {d : EnergyData} (h : NonnegDR d) :
    NonnegDR { d with solarCostSavings := e } := h

/-- Overwriting `solar_cost_savings` touches neither invariant family. -/
theorem NonnegGC_setSolarSavings {e : ℚ} {d : EnergyData} (h : NonnegGC d) :
    NonnegGC { d with solarCostSavings := e } := h

/-- Overwriting `load_cost` touches neither invariant family. -/
theorem NonnegDR_setLoadCost {e : ℚ} {d : EnergyData} (h : NonnegDR d) :
    NonnegDR { d with loadCost := e } := h

/-- Overwriting `load_cost` touches neither invariant family. -/
theorem NonnegGC_setLoadCost {e : ℚ} {d : EnergyData} (h : NonnegGC d) :
    NonnegGC { d with loadCost := e } := h

/-- `_update_net_values_and_costs` writes only net, cost and total-net
fields, so it preserves delivered/received nonnegativity. -/
theorem NonnegDR_updateNet {cfg : Config} {now : PyDateTime} {d : EnergyData}
    (h : NonnegDR d) : NonnegDR (updateNetValuesAndCosts cfg now d) := h

/-- `_update_net_values_and_costs` preserves generated/consumed
nonnegativity. -/
theorem NonnegGC_updateNet {cfg : Config} {now : PyDateTime} {d : EnergyData}
    (h : NonnegGC d) : NonnegGC (updateNetValuesAndCosts cfg now d) := h

/-- The tick body preserves delivered/received nonnegativity. -/
theorem NonnegDR_tickMain {cfg : Config} {st : CoordState} {now : PyDateTime}
    {g s l : Option ℚ} (h : NonnegDR st.data) :
    NonnegDR (tickMain cfg st now g s l).data := by
  cases g with
  | none => exact h
  | some gv =>
    simp only [tickMain]
    cases s with
    | none =>
      cases l with
      | none => exact NonnegDR_applyGridEnergy h
      | some lv =>
        exact NonnegDR_updateNet (NonnegDR_setLoadCost
          (NonnegDR_addConsumed (NonnegDR_applyGridEnergy h)))
    | some sv =>
      cases l with
      | none =>
        exact NonnegDR_setSolarSavings (NonnegDR_addGenerated (NonnegDR_applyGridEnergy h))
      | some lv =>
        exact NonnegDR_updateNet (NonnegDR_setLoadCost (NonnegDR_addConsumed
          (NonnegDR_setSolarSavings (NonnegDR_addGenerated (NonnegDR_applyGridEnergy h)))))

/-- The tick body preserves generated/consumed nonnegativity when the
solar and load readings (if present) are nonnegative. -/
theorem NonnegGC_tickMain {cfg : Config} {st : CoordState} {now : PyDateTime}
    {g s l : Option ℚ} (h : NonnegGC st.data)
    (hs : match s with | none => True | some v => 0 ≤ v)
    (hl : match l with | none => True | some v => 0 ≤ v) :
    NonnegGC (tickMain cfg st now g s l).data := by
  have hw : (0 : ℚ) ≤ WATTS_TO_KWH_PER_MINUTE := by norm_num [WATTS_TO_KWH_PER_MINUTE]
  cases g with
  | none => exact h
  | some gv =>
    simp only [tickMain]
    cases s with
    | none =>
      cases l with
      | none => exact NonnegGC_applyGridEnergy h
      | some lv =>
        exact NonnegGC_updateNet (NonnegGC_setLoadCost
          (NonnegGC_addConsumed (NonnegGC_applyGridEnergy h) (mul_nonneg hl hw)))
    | some sv =>
      cases l with
      | none =>
        exact NonnegGC_setSolarSavings
          (NonnegGC_addGenerated (NonnegGC_applyGridEnergy h) (mul_nonneg hs hw))
      | some lv =>
        exact NonnegGC_updateNet (NonnegGC_setLoadCost (NonnegGC_addConsumed
          (NonnegGC_setSolarSavings (NonnegGC_addGenerated (NonnegGC_applyGridEnergy h)
            (mul_nonneg hs hw))) (mul_nonneg hl hw)))

/-- The full tick (reset check included) preserves delivered/received
nonnegativity. -/
theorem NonnegDR_tick {cfg : Config} {st : CoordState} {now : PyDateTime}
    {g s l : Option ℚ} (h : NonnegDR st.data) :
    NonnegDR (tick cfg st now g s l).data := by
  cases hnr : getNextResetTime cfg.billingDay now with
  | none => simpa only [tick, hnr] using h
  | some nr =>
    simp only [tick, hnr]
    by_cases hle : nr.le now
    · rw [if_pos hle]
      cases getBillingCycleStart cfg.billingDay now with
      | none => exact NonnegDR_init
      | some cs => exact NonnegDR_tickMain NonnegDR_init
    · rw [if_neg hle]
      exact NonnegDR_tickMain h

/-- The full tick preserves generated/consumed nonnegativity for
nonnegative solar/load readings. -/
theorem NonnegGC_tick {cfg : Config} {st : CoordState} {now : PyDateTime}
    {g s l : Option ℚ} (h : NonnegGC st.data)
    (hs : match s with | none => True | some v => 0 ≤ v)
    (hl : match l with | none => True | some v => 0 ≤ v) :
    NonnegGC (tick cfg st now g s l).data := by
  cases hnr : getNextResetTime cfg.billingDay now with
  | none => simpa only [tick, hnr] using h
  | some nr =>
    simp only [tick, hnr]
    by_cases hle : nr.le now
    · rw [if_pos hle]
      cases getBillingCycleStart cfg.billingDay now with
      | none => exact NonnegGC_init
      | some cs => exact NonnegGC_tickMain NonnegGC_init hs hl
    · rw [if_neg hle]
      exact NonnegGC_tickMain h hs hl

/-- A backfill iteration preserves delivered/received nonnegativity. -/
theorem NonnegDR_processHistoricalStep {cfg : Config} {d : EnergyData}
    {ts : PyDateTime} {f g : ℚ} {s l : Option ℚ} (h : NonnegDR d) :
    NonnegDR (processHistoricalStep cfg d ts f g s l) := by
  simp only [processHistoricalStep]
  cases s with
  | none =>
    cases l with
    | none => exact NonnegDR_applyGridEnergy h
    | some lv =>
      exact NonnegDR_setLoadCost (NonnegDR_addConsumed (NonnegDR_applyGridEnergy h))
  | some sv =>
    cases l with
    | none =>
      exact NonnegDR_setSolarSavings (NonnegDR_addGenerated (NonnegDR_applyGridEnergy h))
    | some lv =>
      exact NonnegDR_setLoadCost (NonnegDR_addConsumed
        (NonnegDR_setSolarSavings (NonnegDR_addGenerated (NonnegDR_applyGridEnergy h))))

/-- A backfill iteration preserves generated/consumed nonnegativity for
a nonnegative energy factor and nonnegative solar/load values. -/
theorem NonnegGC_processHistoricalStep {cfg : Config} {d : EnergyData}
    {ts : PyDateTime} {f g : ℚ} {s l : Option ℚ} (h : NonnegGC d) (hf : 0 ≤ f)
    (hs : match s with | none => True | some v => 0 ≤ v)
    (hl : match l with | none => True | some v => 0 ≤ v) :
    NonnegGC (processHistoricalStep cfg d ts f g s l) := by
  simp only [processHistoricalStep]
  cases s with
  | none =>
    cases l with
    | none => exact NonnegGC_applyGridEnergy h
    | some lv =>
      exact NonnegGC_setLoadCost
        (NonnegGC_addConsumed (NonnegGC_applyGridEnergy h) (mul_nonneg hl hf))
  | some sv =>
    cases l with
    | none =>
      exact NonnegGC_setSolarSavings
        (NonnegGC_addGenerated (NonnegGC_applyGridEnergy h) (mul_nonneg hs hf))
    | some lv =>
      exact NonnegGC_setLoadCost (NonnegGC_addConsumed
        (NonnegGC_setSolarSavings (NonnegGC_addGenerated (NonnegGC_applyGridEnergy h)
          (mul_nonneg hs hf))) (mul_nonneg hl hf))

/-- Adding to one period's delivered field and to the delivered total
keeps the total equal to the period sum. -/
theorem TotalsMatch_addDelivered {p : Period} {e : ℚ} {d : EnergyData}
    (h : TotalsMatch d) : TotalsMatch (addDelivered p e d) := by
  obtain ⟨h1, h2, h3, h4⟩ := h
  refine ⟨?_, h2, h3, h4⟩
  cases p <;> simp [addDelivered] <;> linarith

/-- Adding to one period's received field and to the received total
keeps the total equal to the period sum. -/
theorem TotalsMatch_addReceived {p : Period} {e : ℚ} {d : EnergyData}
    (h : TotalsMatch d) : TotalsMatch (addReceived p e d) := by
  obtain ⟨h1, h2, h3, h4⟩ := h
  refine ⟨h1, ?_, h3, h4⟩
  cases p <;> simp [addReceived] <;> linarith

/-- Adding to one period's generated field and to the generated total
keeps the total equal to the period sum. -/
theorem TotalsMatch_addGenerated {p : Period} {e : ℚ} {d : EnergyData}
    (h : TotalsMatch d) : TotalsMatch (addGenerated p e d) := by
  obtain ⟨h1, h2, h3, h4⟩ := h
  refine ⟨h1, h2, ?_, h4⟩
  cases p <;> simp [addGenerated] <;> linarith

/-- Adding to one period's consumed field and to the consumed total
keeps the total equal to the period sum. -/
theorem TotalsMatch_addConsumed {p : Period} {e : ℚ} {d : EnergyData}
    (h : TotalsMatch d) : TotalsMatch (addConsumed p e d) := by
  obtain ⟨h1, h2, h3, h4⟩ := h
  refine ⟨h1, h2, h3, ?_⟩
  cases p <;> simp [addConsumed] <;> linarith

/-- The grid branch keeps totals equal to period sums. -/
theorem TotalsMatch_applyGridEnergy {p : Period} {e : ℚ} {d : EnergyData}
    (h : TotalsMatch d) : TotalsMatch (applyGridEnergy p e d) := by
  unfold applyGridEnergy
  split
  · exact TotalsMatch_addDelivered h
  · exact TotalsMatch_addReceived h

/-- Overwriting `solar_cost_savings` keeps totals equal to period sums. -/
theorem TotalsMatch_setSolarSavings {e : ℚ} {d : EnergyData} (h : TotalsMatch d) :
    TotalsMatch { d with solarCostSavings := e } := h

/-- Overwriting `load_cost` keeps totals equal to period sums. -/
theorem TotalsMatch_setLoadCost {e : ℚ} {d : EnergyData} (h : TotalsMatch d) :
    TotalsMatch { d with loadCost := e } := h

/-- `_update_net_values_and_costs` keeps totals equal to period sums. -/
theorem TotalsMatch_updateNet {cfg : Config} {now : PyDateTime} {d : EnergyData}
    (h : TotalsMatch d) : TotalsMatch (updateNetValuesAndCosts cfg now d) := h

/-- The tick body keeps totals equal to period sums. -/
theorem TotalsMatch_tickMain {cfg : Config} {st : CoordState} {now : PyDateTime}
    {g s l : Option ℚ} (h : TotalsMatch st.data) :
    TotalsMatch (tickMain cfg st now g s l).data := by
  cases g with
  | none => exact h
  | some gv =>
    simp only [tickMain]
    cases s with
    | none =>
      cases l with
      | none => exact TotalsMatch_applyGridEnergy h
      | some lv =>
        exact TotalsMatch_updateNet (TotalsMatch_setLoadCost
          (TotalsMatch_addConsumed (TotalsMatch_applyGridEnergy h)))
    | some sv =>
      cases l with
      | none =>
        exact TotalsMatch_setSolarSavings
          (TotalsMatch_addGenerated (TotalsMatch_applyGridEnergy h))
      | some lv =>
        exact TotalsMatch_updateNet (TotalsMatch_setLoadCost (TotalsMatch_addConsumed
          (TotalsMatch_setSolarSavings (TotalsMatch_addGenerated
            (TotalsMatch_applyGridEnergy h)))))

/-- The full tick keeps totals equal to period sums. -/
theorem TotalsMatch_tick {cfg : Config} {st : CoordState} {now : PyDateTime}
    {g s l : Option ℚ} (h : TotalsMatch st.data) :
    TotalsMatch (tick cfg st now g s l).data := by
  cases hnr : getNextResetTime cfg.billingDay now with
  | none => simpa only [tick, hnr] using h
  | some nr =>
    simp only [tick, hnr]
    by_cases hle : nr.le now
    · rw [if_pos hle]
      cases getBillingCycleStart cfg.billingDay now with
      | none => exact TotalsMatch_init
      | some cs => exact TotalsMatch_tickMain TotalsMatch_init
    · rw [if_neg hle]
      exact TotalsMatch_tickMain h

/-- A backfill iteration keeps totals equal to period sums. -/
theorem TotalsMatch_processHistoricalStep {cfg : Config} {d : EnergyData}
    {ts : PyDateTime} {f g : ℚ} {s l : Option ℚ} (h : TotalsMatch d) :
    TotalsMatch (processHistoricalStep cfg d ts f g s l) := by
  simp only [processHistoricalStep]
  cases s with
  | none =>
    cases l with
    | none => exact TotalsMatch_applyGridEnergy h
    | some lv =>
      exact TotalsMatch_setLoadCost
        (TotalsMatch_addConsumed (TotalsMatch_applyGridEnergy h))
  | some sv =>
    cases l with
    | none =>
      exact TotalsMatch_setSolarSavings
        (TotalsMatch_addGenerated (TotalsMatch_applyGridEnergy h))
    | some lv =>
      exact TotalsMatch_setLoadCost (TotalsMatch_addConsumed
        (TotalsMatch_setSolarSavings (TotalsMatch_addGenerated
          (TotalsMatch_applyGridEnergy h))))

/-- Every operation preserves delivered/received nonnegativity,
unconditionally. -/
theorem NonnegDR_applyOp {cfg : Config} {st : CoordState} (op : Op)
    (h : NonnegDR st.data) : NonnegDR (applyOp cfg st op).data := by
  cases op with
  | tickOp now g s l => exact NonnegDR_tick h
  | backfillOp ts f g s l => exact NonnegDR_processHistoricalStep h
  | netUpdateOp now => exact NonnegDR_updateNet h

/-- Every benign operation preserves generated/consumed nonnegativity. -/
theorem NonnegGC_applyOp {cfg : Config} {st : CoordState} (op : Op)
    (h : NonnegGC st.data) (hok : OpOK op) : NonnegGC (applyOp cfg st op).data := by
  cases op with
  | tickOp now g s l => exact NonnegGC_tick h hok.1 hok.2
  | backfillOp ts f g s l => exact NonnegGC_processHistoricalStep h hok.1 hok.2.1 hok.2.2
  | netUpdateOp now => exact NonnegGC_updateNet h

/-- Every operation keeps totals equal to period sums. -/
theorem TotalsMatch_applyOp {cfg : Config} {st : CoordState} (op : Op)
    (h : TotalsMatch st.data) : TotalsMatch (applyOp cfg st op).data := by
  cases op with
  | tickOp now g s l => exact TotalsMatch_tick h
  | backfillOp ts f g s l => exact TotalsMatch_processHistoricalStep h
  | netUpdateOp now => exact TotalsMatch_updateNet h

/-- Delivered/received nonnegativity is preserved along any operation
sequence. -/
theorem NonnegDR_runOps {cfg : Config} (ops : List Op) {st : CoordState}
    (h : NonnegDR st.data) : NonnegDR (runOps cfg st ops).data := by
  induction ops generalizing st with
  | nil => exact h
  | cons op rest ih => exact ih (NonnegDR_applyOp op h)

/-- Generated/consumed nonnegativity is preserved along any benign
operation sequence. -/
theorem NonnegGC_runOps {cfg : Config} (ops : List Op) {st : CoordState}
    (h : NonnegGC st.data) (hok : ∀ op ∈ ops, OpOK op) :
    NonnegGC (runOps cfg st ops).data := by
  induction ops generalizing st with
  | nil => exact h
  | cons op rest ih =>
    exact ih (NonnegGC_applyOp op h (hok op (List.mem_cons_self op rest)))
      (fun o ho => hok o (List.mem_cons_of_mem op ho))

/-- Totals stay equal to period sums along any operation sequence. -/
theorem TotalsMatch_runOps {cfg : Config} (ops : List Op) {st : CoordState}
    (h : TotalsMatch st.data) : TotalsMatch (runOps cfg st ops).data := by
  induction ops generalizing st with
  | nil => exact h
  | cons op rest ih => exact ih (TotalsMatch_applyOp op h)

/-- C2 (amended): starting from the freshly initialized coordinator,
after any sequence of operations the delivered and received fields
(per period and totals) are nonnegative unconditionally, and the
generated and consumed fields are nonnegative *provided* every solar
and load reading supplied is nonnegative (and backfill energy factors
are nonnegative, as the ascending timestamp order guarantees).  Without
that proviso the generated/consumed fields can go negative
(see the counterexample). -/
theorem ledger_nonneg_amended (cfg : Config) (now0 : PyDateTime) (ops : List Op) :
    NonnegDR (runOps cfg (initState cfg now0) ops).data ∧
    ((∀ op ∈ ops, OpOK op) → NonnegGC (runOps cfg (initState cfg now0) ops).data) :=
  ⟨NonnegDR_runOps ops NonnegDR_init,
    fun hok => NonnegGC_runOps ops NonnegGC_init hok⟩

/-- Witness for `ledger_nonneg_amended`: a concrete benign sequence —
a backfill step (grid −2000 W for 5 minutes, solar 1500 W, load 800 W)
followed by a live tick (grid 6000 W, solar 0 W) and the final net
recompute — keeps every delivered/received/generated/consumed field
nonnegative. -/
theorem ledger_nonneg_amended_witness :
    NonnegDR (runOps ⟨.timeOfUse, 1, .zone1, .monthly⟩
      (initState ⟨.timeOfUse, 1, .zone1, .monthly⟩ ⟨2024, 7, 1, 600⟩)
      [.backfillOp ⟨2024, 7, 1, 300⟩ (5 * WATTS_TO_KWH_PER_MINUTE) (-2000)
          (some 1500) (some 800),
        .tickOp ⟨2024, 7, 2, 840⟩ (some 6000) (some 0) none,
        .netUpdateOp ⟨2024, 7, 2, 840⟩]).data ∧
    NonnegGC (runOps ⟨.timeOfUse, 1, .zone1, .monthly⟩
      (initState ⟨.timeOfUse, 1, .zone1, .monthly⟩ ⟨2024, 7, 1, 600⟩)
      [.backfillOp ⟨2024, 7, 1, 300⟩ (5 * WATTS_TO_KWH_PER_MINUTE) (-2000)
          (some 1500) (some 800),
        .tickOp ⟨2024, 7, 2, 840⟩ (some 6000) (some 0) none,
        .netUpdateOp ⟨2024, 7, 2, 840⟩]).data :=
  ⟨(ledger_nonneg_amended ⟨.timeOfUse, 1, .zone1, .monthly⟩ ⟨2024, 7, 1, 600⟩ _).1,
    (ledger_nonneg_amended ⟨.timeOfUse, 1, .zone1, .monthly⟩ ⟨2024, 7, 1, 600⟩ _).2
      (by
        intro op hop
        simp only [List.mem_cons, List.not_mem_nil, or_false] at hop
        rcases hop with rfl | rfl | rfl
        · exact ⟨by norm_num [WATTS_TO_KWH_PER_MINUTE], by norm_num, by norm_num⟩
        · exact ⟨by norm_num, trivial⟩
        · trivial)⟩

/-- C10: starting from the freshly initialized coordinator, after any
sequence of operations (live ticks including resets, backfill steps,
net recomputes) each grand total equals the sum of its three per-period
fields, for delivered, received, generated and consumed — every update
adds the same quantity to exactly one per-period field and to the
corresponding total. -/
theorem totals_equal_period_sums (cfg : Config) (now0 : PyDateTime) (ops : List Op) :
    TotalsMatch (runOps cfg (initState cfg now0) ops).data :=
  TotalsMatch_runOps ops TotalsMatch_init

end Ladwp
